import Mathlib

/-!
Shallow embedding of the `pallet-erc1155` multi-token ledger
(`src/lib.rs`, `src/imbalance.rs`, `src/token.rs`).

Modelling choices:
* `AccountId` and `TokenId` are `Nat`; the `Default::default()` account is `0`
  (`defaultAccount`).
* `Balance` is `Nat` bounded by a parameter `Bmax` (the `Balance` type's
  `max_value()`); `saturating_add` is `satAdd`, `saturating_sub` is truncated
  `Nat` subtraction, `checked_sub` is `checkedSub`.
* Storage (`Balances` double map, `Issuance` map) is a pair of functions into
  `Option Nat`; `StorageMap::mutate` / `try_mutate` become functional updates,
  and a failing `try_mutate` returns `Except.error` with no new state (the
  storage rollback).
* `deposit_event` is modelled by returning the list of emitted events.
* The imbalance types of `imbalance.rs` carry `(amount, token)` (the token is a
  phantom type parameter in the source, fixed per instantiation); their `Drop`
  handlers become the explicit functions `dropPositive` / `dropNegative`.
-/

namespace Erc1155

/-- `T::AccountId::default()`, the account rejected by the `ensure!` checks. -/
def defaultAccount : Nat := 0

/-- Saturating addition of the bounded `Balance` type: clamps at `Bmax`. -/
def satAdd (Bmax a b : Nat) : Nat := min (a + b) Bmax

/-- `checked_sub` of the `Balance` type: `some (a - b)` iff `b ≤ a`. -/
def checkedSub (a b : Nat) : Option Nat := if b ≤ a then some (a - b) else none

/-- The durable ledger state: the `Balances` double map
(account, token) ↦ balance and the `Issuance` map token ↦ supply.
`none` is an absent storage entry. -/
structure Ledger where
  balances : Nat → Nat → Option Nat
  issuance : Nat → Option Nat

/-- Write one cell of the `Balances` double map. -/
def setBalance (s : Ledger) (a t : Nat) (v : Option Nat) : Ledger :=
  { s with balances := fun a' t' => if a' = a ∧ t' = t then v else s.balances a' t' }

/-- Write one cell of the `Issuance` map. -/
def setIssuance (s : Ledger) (t : Nat) (v : Option Nat) : Ledger :=
  { s with issuance := fun t' => if t' = t then v else s.issuance t' }

/-- `balance_of`: read a balance, an absent entry reads as zero
(`unwrap_or(zero)`). -/
def balance_of (s : Ledger) (a t : Nat) : Nat := (s.balances a t).getD 0

/-- Read a token's issuance, an absent entry reads as zero. -/
def getIssuance (s : Ledger) (t : Nat) : Nat := (s.issuance t).getD 0

/-- The pallet's `Error` enum. -/
inductive Err where
  | TokenNotFound
  | OutOfFunds
  | AccountNotFound
deriving DecidableEq, Repr

/-- The pallet's `Event` enum: `TransferSingle(from, to, token_id, value)`,
with `from = none` on mint and `to = none` on burn/slash. -/
inductive Event where
  | TransferSingle : Option Nat → Option Nat → Nat → Nat → Event
deriving DecidableEq, Repr

/-- `PositiveImbalance` of `imbalance.rs`: an unreconciled issuance surplus.
The token is the `Token : Get<TokenId>` phantom parameter in the source,
made an explicit field here. -/
structure PositiveImbalance where
  amount : Nat
  token : Nat
deriving DecidableEq, Repr

/-- `NegativeImbalance` of `imbalance.rs`: an unreconciled issuance deficit. -/
structure NegativeImbalance where
  amount : Nat
  token : Nat
deriving DecidableEq, Repr

/-- `Imbalance::peek` for the positive polarity. -/
def PositiveImbalance.peek (p : PositiveImbalance) : Nat := p.amount

/-- `Imbalance::peek` for the negative polarity. -/
def NegativeImbalance.peek (n : NegativeImbalance) : Nat := n.amount

/-- `frame_support::traits::SameOrOther`, the result type of `offset`. -/
inductive SameOrOther (α β : Type) where
  | same : α → SameOrOther α β
  | other : β → SameOrOther α β
  | none : SameOrOther α β
deriving DecidableEq, Repr

/-- `PositiveImbalance::offset` (imbalance.rs lines 79-90): net a surplus
against a deficit. -/
def PositiveImbalance.offset (p : PositiveImbalance) (n : NegativeImbalance) :
    SameOrOther PositiveImbalance NegativeImbalance :=
  if n.amount < p.amount then .same ⟨p.amount - n.amount, p.token⟩
  else if p.amount < n.amount then .other ⟨n.amount - p.amount, n.token⟩
  else .none

/-- `NegativeImbalance::offset` (imbalance.rs lines 138-149). -/
def NegativeImbalance.offset (n : NegativeImbalance) (p : PositiveImbalance) :
    SameOrOther NegativeImbalance PositiveImbalance :=
  if p.amount < n.amount then .same ⟨n.amount - p.amount, n.token⟩
  else if n.amount < p.amount then .other ⟨p.amount - n.amount, p.token⟩
  else .none

/-- `Drop for PositiveImbalance` (imbalance.rs lines 155-163): fold the surplus
into the token's issuance with `saturating_add`. -/
def dropPositive (Bmax : Nat) (s : Ledger) (p : PositiveImbalance) : Ledger :=
  setIssuance s p.token (some (satAdd Bmax (getIssuance s p.token) p.amount))

/-- `Drop for NegativeImbalance` (imbalance.rs lines 165-173): fold the deficit
into the token's issuance with `saturating_sub`. -/
def dropNegative (s : Ledger) (n : NegativeImbalance) : Ledger :=
  setIssuance s n.token (some (getIssuance s n.token - n.amount))

/-- `safe_transfer_from` (lib.rs lines 150-182). Note the source's receiver
write: `*balance_target = Some(balance.unwrap().saturating_add(value))`, where
`balance` is the sender's already-decremented cell, so the receiver's cell is
overwritten with `(old_from - value).saturating_add(value)`. -/
def safe_transfer_from (Bmax : Nat) (s : Ledger) (frm recv id value : Nat)
    (_calldata : Option (List Nat)) : Except Err (Ledger × List Event) :=
  if recv = defaultAccount then .error .AccountNotFound
  else
    if value = 0 ∨ frm = recv then .ok (s, [])
    else
      match (s.balances frm id).bind (fun b => checkedSub b value) with
      | Option.none => .error .OutOfFunds
      | Option.some newFrom =>
          .ok (setBalance (setBalance s frm id (some newFrom)) recv id
                 (some (satAdd Bmax newFrom value)),
               [Event.TransferSingle (some frm) (some recv) id value])

/-- `mint` (lib.rs lines 198-221). -/
def mint (Bmax : Nat) (s : Ledger) (account id amount : Nat) :
    Except Err (Ledger × PositiveImbalance) :=
  if account = defaultAccount then .error .AccountNotFound
  else
    if amount = 0 then .ok (s, ⟨0, id⟩)
    else
      .ok (setBalance s account id
             (some (satAdd Bmax ((s.balances account id).getD 0) amount)),
           ⟨amount, id⟩)

/-- `burn` (lib.rs lines 224-240): `checked_sub` inside `try_mutate`; an
absent entry makes the `map`/`flatten` chain `None`, hence `OutOfFunds`. -/
def burn (s : Ledger) (account id amount : Nat) :
    Except Err (Ledger × NegativeImbalance) :=
  match (s.balances account id).bind (fun b => checkedSub b amount) with
  | Option.none => .error .OutOfFunds
  | Option.some b' => .ok (setBalance s account id (some b'), ⟨amount, id⟩)

/-- `frame_support::traits::ExistenceRequirement`, accepted but unused by
`Erc1155Token::transfer`. -/
inductive ExistenceRequirement where
  | KeepAlive
  | AllowDeath
deriving DecidableEq, Repr

namespace Erc1155Token

/-- `Currency::total_balance` (token.rs lines 29-31) for the bound token
`tok`. -/
def total_balance (s : Ledger) (tok who : Nat) : Nat :=
  (s.balances who tok).getD 0

/-- `Currency::burn` (token.rs lines 45-62): contract issuance by `amount`,
clamping at zero via the `checked_sub` fallback; the returned imbalance
carries the full requested `amount` (the local `res` is assigned but not
used for the return value). -/
def burn (s : Ledger) (tok amount : Nat) : Ledger × PositiveImbalance :=
  if amount = 0 then (s, ⟨0, tok⟩)
  else
    let sup := (s.issuance tok).getD 0
    let newSup := match checkedSub sup amount with
      | Option.some v => v
      | Option.none => 0
    (setIssuance s tok (some newSup), ⟨amount, tok⟩)

/-- `Currency::transfer` (token.rs lines 100-125): same body as
`safe_transfer_from` for the bound token (including the receiver write from
the sender's mutated cell), but without the `ensure!(to != default)` check. -/
def transfer (Bmax : Nat) (s : Ledger) (tok frm recv value : Nat)
    (_existence_requirement : ExistenceRequirement) :
    Except Err (Ledger × List Event) :=
  if value = 0 ∨ frm = recv then .ok (s, [])
  else
    match (s.balances frm tok).bind (fun b => checkedSub b value) with
    | Option.none => .error .OutOfFunds
    | Option.some newFrom =>
        .ok (setBalance (setBalance s frm tok (some newFrom)) recv tok
               (some (satAdd Bmax newFrom value)),
             [Event.TransferSingle (some frm) (some recv) tok value])

/-- `Currency::slash` (token.rs lines 127-161). In the insufficient branch the
source zeroes `*balance` and only then computes `remaining = value - *balance`,
so `remaining` is the full `value`. The `ret` closure emits the
transfer-to-none event on every path. -/
def slash (s : Ledger) (tok who value : Nat) :
    Ledger × NegativeImbalance × Nat × List Event :=
  if value = 0 then
    (s, ⟨0, tok⟩, 0, [Event.TransferSingle (some who) none tok 0])
  else
    if total_balance s tok who = 0 then
      (s, ⟨0, tok⟩, value, [Event.TransferSingle (some who) none tok 0])
    else
      let bal := total_balance s tok who
      if bal < value then
        let newBal := 0
        let remaining := value - newBal
        (setBalance s who tok (some newBal), ⟨bal, tok⟩, remaining,
         [Event.TransferSingle (some who) none tok bal])
      else
        (setBalance s who tok (some (bal - value)), ⟨value, tok⟩, 0,
         [Event.TransferSingle (some who) none tok value])

end Erc1155Token

/-- Extract the success payload of a pallet call. -/
def okOf {α : Type} (e : Except Err α) : Option α :=
  match e with
  | .ok r => some r
  | .error _ => none

/-- The conservation invariant restricted to a finite account list:
`issuance[t] = Σ balance[a, t]` over the listed accounts. -/
abbrev conservedOn (accts : List Nat) (s : Ledger) (t : Nat) : Prop :=
  getIssuance s t = (accts.map fun a => balance_of s a t).sum

/-- The empty ledger. -/
def mEmpty : Ledger := ⟨fun _ _ => Option.none, fun _ => Option.none⟩

/-- Concrete pre-state for the transfer scenario: `balance[1,0] = 100`,
`balance[2,0] = 50`, `issuance[0] = 150`. -/
def c1State : Ledger :=
  ⟨fun a t => if a = 1 ∧ t = 0 then some 100
              else if a = 2 ∧ t = 0 then some 50 else Option.none,
   fun t => if t = 0 then some 150 else Option.none⟩

end Erc1155

namespace Erc1155

/-- C1: the claim's success postconditions fail on the receiver side. At the
state `balance[1,0] = 100, balance[2,0] = 50, issuance[0] = 150`, the call
`safe_transfer_from(1, 2, 0, 30, None)` succeeds, decrements the sender to 70,
leaves issuance at 150 and emits the claimed event, but sets the receiver's
balance to 100 — the sender's old balance `(100 - 30) + 30` — instead of the
claimed `50 + 30 = 80`: the source writes the receiver's cell from the
sender's mutated cell. -/
theorem transfer_overwrites_receiver_balance :
    (okOf (safe_transfer_from 1000 c1State 1 2 0 30 none)).map
        (fun r => (balance_of r.1 1 0, balance_of r.1 2 0, getIssuance r.1 0, r.2)) =
      some (70, 100, 150, [Event.TransferSingle (some 1) (some 2) 0 30]) ∧
    balance_of c1State 2 0 + 30 = 80 ∧ (100 : Nat) ≠ 80 := by
  refine ⟨?_, by decide, by decide⟩
  rfl

/-- C2: conservation is broken by a successful transfer. Starting from the
empty ledger (which satisfies the invariant), mint 100 of token 0 to account 1
and reconcile, mint 50 to account 2 and reconcile — the invariant holds after
each — then transfer 30 from 1 to 2: afterwards `issuance[0] = 150` while the
balances sum to `70 + 100 = 170`, because `safe_transfer_from` credits the
receiver with the sender's old balance. -/
theorem conservation_broken_by_transfer :
    conservedOn [1, 2] mEmpty 0 ∧
    ((okOf (mint 1000 mEmpty 1 0 100)).bind fun r1 =>
        let s1 := dropPositive 1000 r1.1 r1.2
        (okOf (mint 1000 s1 2 0 50)).bind fun r2 =>
          let s2 := dropPositive 1000 r2.1 r2.2
          (okOf (safe_transfer_from 1000 s2 1 2 0 30 none)).map fun r3 =>
            (getIssuance s1 0, balance_of s1 1 0 + balance_of s1 2 0,
             getIssuance s2 0, balance_of s2 1 0 + balance_of s2 2 0,
             getIssuance r3.1 0, balance_of r3.1 1 0 + balance_of r3.1 2 0)) =
      some (100, 100, 150, 150, 150, 170) ∧
    (150 : Nat) ≠ 170 := by
  refine ⟨by decide, ?_, by decide⟩
  rfl

/-- C3: a transfer with insufficient sender funds (absent entry counting as
zero) fails with `OutOfFunds`; the failing `try_mutate` writes nothing, so the
error return carries no state change and no event. -/
theorem transfer_insufficient_rolls_back (Bmax : Nat) (s : Ledger)
    (a b t v : Nat) (hb : b ≠ defaultAccount) (hab : a ≠ b) (hv : 0 < v)
    (hbal : balance_of s a t < v) :
    safe_transfer_from Bmax s a b t v none = .error .OutOfFunds := by
  have hcond : ¬ (v = 0 ∨ a = b) := by
    rintro (h | h)
    · omega
    · exact hab h
  unfold safe_transfer_from
  rw [if_neg hb, if_neg hcond]
  cases hsb : s.balances a t with
  | none => rfl
  | some bb =>
      have hlt : ¬ (v ≤ bb) := by
        simp [balance_of, hsb] at hbal
        omega
      simp [checkedSub, hlt]

/-- C3 witness: account 2 holds 50 of token 0 in `c1State`, transferring 60 to
account 1 fails with `OutOfFunds`. -/
theorem transfer_insufficient_rolls_back_witness :
    balance_of c1State 2 0 < 60 ∧
    safe_transfer_from 1000 c1State 2 1 0 60 none = .error .OutOfFunds :=
  ⟨by decide, transfer_insufficient_rolls_back 1000 c1State 2 1 0 60
      (by decide) (by decide) (by decide) (by decide)⟩

/-- C4: self-transfer and zero-value transfer to a valid non-default account
both short-circuit to `Ok` with the state returned untouched and no event
emitted. -/
theorem transfer_noop_laws (Bmax : Nat) (s : Ledger) (a b t v : Nat)
    (ha : a ≠ defaultAccount) (hb : b ≠ defaultAccount) :
    safe_transfer_from Bmax s a a t v none = .ok (s, []) ∧
    safe_transfer_from Bmax s a b t 0 none = .ok (s, []) := by
  constructor
  · unfold safe_transfer_from
    rw [if_neg ha, if_pos (Or.inr rfl)]
  · unfold safe_transfer_from
    rw [if_neg hb, if_pos (Or.inl rfl)]

/-- C4 witness at accounts 1 and 2, token 0, value 7. -/
theorem transfer_noop_laws_witness :
    (1 : Nat) ≠ defaultAccount ∧
    safe_transfer_from 1000 c1State 1 1 0 7 none = .ok (c1State, []) ∧
    safe_transfer_from 1000 c1State 1 2 0 0 none = .ok (c1State, []) :=
  ⟨by decide, transfer_noop_laws 1000 c1State 1 2 0 7 (by decide) (by decide)⟩

end Erc1155

namespace Erc1155

/-- C5 counterexample: the claim says an absent entry counts as balance zero,
so `burn` of amount 0 should succeed for an account with no entry; the source's
`balance.map(..).flatten().ok_or(OutOfFunds)` makes any absent entry an error,
so `burn(1, 0, 0)` on the empty ledger fails although `0 < 0` is false. -/
theorem burn_absent_entry_zero_fails :
    burn mEmpty 1 0 0 = .error .OutOfFunds ∧ ¬ (balance_of mEmpty 1 0 < 0) :=
  ⟨rfl, by decide⟩

/-- C5 amended: `burn(account, id, amount)` fails with `OutOfFunds` and
changes nothing exactly when the balance entry is absent or holds less than
`amount` (an absent entry errors even for amount 0); with an entry `b ≥
amount` it stores `b - amount` and returns a `NegativeImbalance` whose peek is
`amount`. -/
theorem burn_spec (s : Ledger) (account t amount : Nat) :
    (s.balances account t = Option.none →
      burn s account t amount = .error .OutOfFunds) ∧
    ∀ b, s.balances account t = some b →
      (amount ≤ b →
        burn s account t amount =
          .ok (setBalance s account t (some (b - amount)), ⟨amount, t⟩) ∧
        NegativeImbalance.peek ⟨amount, t⟩ = amount) ∧
      (b < amount → burn s account t amount = .error .OutOfFunds) := by
  constructor
  · intro h
    unfold burn
    rw [h]
    rfl
  · intro b hb
    constructor
    · intro hle
      refine ⟨?_, rfl⟩
      unfold burn
      rw [hb]
      simp [checkedSub, hle]
    · intro hlt
      have hnle : ¬ (amount ≤ b) := by omega
      unfold burn
      rw [hb]
      simp [checkedSub, hnle]

/-- C5 witness: account 1 holds 100 of token 0 in `c1State`; burning 40
succeeds, stores 60 and returns a peek-40 deficit. -/
theorem burn_spec_witness :
    40 ≤ 100 ∧
    (burn c1State 1 0 40 =
        .ok (setBalance c1State 1 0 (some (100 - 40)), ⟨40, 0⟩) ∧
      NegativeImbalance.peek ⟨40, 0⟩ = 40) :=
  ⟨by decide, ((burn_spec c1State 1 0 40).2 100 rfl).1 (by decide)⟩

/-- C6 counterexample: account 2 holds 50 of token 0 in `c1State`; the claim
says `slash(2, 80)` reports `remaining = 80 - 50 = 30`, but the source zeroes
the balance before computing `remaining = value - *balance`, so the call
returns `remaining = 80`. -/
theorem slash_remaining_not_shortfall :
    (Erc1155Token.slash c1State 0 2 80).2.2.1 = 80 ∧
    Erc1155Token.total_balance c1State 0 2 = 50 ∧ (80 : Nat) ≠ 80 - 50 := by
  refine ⟨?_, by decide, by decide⟩
  rfl

/-- C6 amended: for `0 < balance(who) < value`, `slash(who, value)` zeroes
`who`'s balance, returns a `NegativeImbalance` whose peek is the old balance,
returns `remaining` equal to the full requested `value` (the shortfall is
computed against the already-zeroed balance), and emits the transfer-to-none
event carrying the slashed amount. -/
theorem slash_partial_zeroes_balance (s : Ledger) (tok who value : Nat)
    (h1 : 0 < Erc1155Token.total_balance s tok who)
    (h2 : Erc1155Token.total_balance s tok who < value) :
    Erc1155Token.slash s tok who value =
      (setBalance s who tok (some 0),
       ⟨Erc1155Token.total_balance s tok who, tok⟩, value,
       [Event.TransferSingle (some who) none tok
          (Erc1155Token.total_balance s tok who)]) ∧
    NegativeImbalance.peek ⟨Erc1155Token.total_balance s tok who, tok⟩ =
      Erc1155Token.total_balance s tok who := by
  have hv : ¬ (value = 0) := by omega
  have h0 : ¬ (Erc1155Token.total_balance s tok who = 0) := by omega
  refine ⟨?_, rfl⟩
  unfold Erc1155Token.slash
  rw [if_neg hv, if_neg h0, if_pos h2]
  rfl

/-- C6 witness: slashing 80 from account 2 (holding 50) in `c1State`. -/
theorem slash_partial_zeroes_balance_witness :
    0 < Erc1155Token.total_balance c1State 0 2 ∧
    Erc1155Token.slash c1State 0 2 80 =
      (setBalance c1State 2 0 (some 0),
       ⟨Erc1155Token.total_balance c1State 0 2, 0⟩, 80,
       [Event.TransferSingle (some 2) none 0
          (Erc1155Token.total_balance c1State 0 2)]) :=
  ⟨by decide,
   (slash_partial_zeroes_balance c1State 0 2 80 (by decide) (by decide)).1⟩

/-- C7: `offset` nets a surplus of `a` against a deficit of `b` (and
symmetrically a deficit against a surplus): a same-polarity remainder `a - b`
when `a > b`, an opposite-polarity remainder `b - a` when `b > a`, and `None`
when `a = b`. -/
theorem offset_correct (a b t : Nat) :
    (b < a →
      PositiveImbalance.offset ⟨a, t⟩ ⟨b, t⟩ = .same ⟨a - b, t⟩ ∧
      NegativeImbalance.offset ⟨a, t⟩ ⟨b, t⟩ = .same ⟨a - b, t⟩) ∧
    (a < b →
      PositiveImbalance.offset ⟨a, t⟩ ⟨b, t⟩ = .other ⟨b - a, t⟩ ∧
      NegativeImbalance.offset ⟨a, t⟩ ⟨b, t⟩ = .other ⟨b - a, t⟩) ∧
    (a = b →
      PositiveImbalance.offset ⟨a, t⟩ ⟨b, t⟩ = .none ∧
      NegativeImbalance.offset ⟨a, t⟩ ⟨b, t⟩ = .none) := by
  refine ⟨fun h => ?_, fun h => ?_, fun h => ?_⟩
  · have h' : ¬ (a < b) := by omega
    constructor <;>
      simp [PositiveImbalance.offset, NegativeImbalance.offset, h, h']
  · have h' : ¬ (b < a) := by omega
    constructor <;>
      simp [PositiveImbalance.offset, NegativeImbalance.offset, h, h']
  · subst h
    constructor <;>
      simp [PositiveImbalance.offset, NegativeImbalance.offset]

/-- C7 witness: offsetting amounts 5 against 3 of token 0 leaves a
same-polarity remainder of 2 in both directions. -/
theorem offset_correct_witness :
    3 < 5 ∧
    (PositiveImbalance.offset ⟨5, 0⟩ ⟨3, 0⟩ = .same ⟨5 - 3, 0⟩ ∧
      NegativeImbalance.offset ⟨5, 0⟩ ⟨3, 0⟩ = .same ⟨5 - 3, 0⟩) :=
  ⟨by decide, (offset_correct 5 3 0).1 (by decide)⟩

end Erc1155

namespace Erc1155

/-- C8: dropping an unconsumed imbalance folds its amount into its token's
issuance exactly once — saturating-plus for a surplus, saturating-minus for a
deficit — and touches no other issuance entry and no balance entry. -/
theorem imbalance_drop_reconciles (Bmax : Nat) (s : Ledger)
    (p : PositiveImbalance) (n : NegativeImbalance) :
    (getIssuance (dropPositive Bmax s p) p.token =
        satAdd Bmax (getIssuance s p.token) p.amount ∧
      (∀ t, t ≠ p.token → (dropPositive Bmax s p).issuance t = s.issuance t) ∧
      ∀ a t, (dropPositive Bmax s p).balances a t = s.balances a t) ∧
    (getIssuance (dropNegative s n) n.token =
        getIssuance s n.token - n.amount ∧
      (∀ t, t ≠ n.token → (dropNegative s n).issuance t = s.issuance t) ∧
      ∀ a t, (dropNegative s n).balances a t = s.balances a t) := by
  refine ⟨⟨?_, fun t ht => ?_, fun a t => ?_⟩,
          ⟨?_, fun t ht => ?_, fun a t => ?_⟩⟩ <;>
    simp [dropPositive, dropNegative, setIssuance, getIssuance, *]

/-- C8 witness: dropping a surplus of 7 and a deficit of 3 of token 0 over
`c1State`, checked at token 0 and at the untouched token 1. -/
theorem imbalance_drop_reconciles_witness :
    getIssuance (dropPositive 1000 c1State ⟨7, 0⟩) 0 =
        satAdd 1000 (getIssuance c1State 0) 7 ∧
    (1 : Nat) ≠ 0 ∧
    (dropNegative c1State ⟨3, 0⟩).issuance 1 = c1State.issuance 1 :=
  ⟨(imbalance_drop_reconciles 1000 c1State ⟨7, 0⟩ ⟨3, 0⟩).1.1, by decide,
   (imbalance_drop_reconciles 1000 c1State ⟨7, 0⟩ ⟨3, 0⟩).2.2.1 1 (by decide)⟩

/-- C9 counterexample: the claim says the Currency View's `transfer` agrees
with `safe_transfer_from` on every input, but `Erc1155Token::transfer` lacks
the `ensure!(to != default)` guard: with `to` the default account and value 0
the Currency View succeeds as a no-op while `safe_transfer_from` fails with
`AccountNotFound`. -/
theorem currency_transfer_default_recv_differs :
    Erc1155Token.transfer 1000 mEmpty 0 1 0 0 .AllowDeath = .ok (mEmpty, []) ∧
    safe_transfer_from 1000 mEmpty 1 0 0 0 none = .error .AccountNotFound :=
  ⟨rfl, rfl⟩

/-- C9 amended: for every non-default receiver, `Erc1155Token::transfer`
bound to token `tok` returns exactly the same result — state, events and
errors — as `safe_transfer_from(frm, recv, tok, value, None)`, for any
existence-requirement argument. -/
theorem currency_transfer_refines (Bmax : Nat) (s : Ledger)
    (tok frm recv value : Nat) (er : ExistenceRequirement)
    (h : recv ≠ defaultAccount) :
    Erc1155Token.transfer Bmax s tok frm recv value er =
      safe_transfer_from Bmax s frm recv tok value none := by
  unfold Erc1155Token.transfer safe_transfer_from
  rw [if_neg h]

/-- C9 witness: both transfers of 30 from account 1 to account 2 agree on
`c1State`. -/
theorem currency_transfer_refines_witness :
    (2 : Nat) ≠ defaultAccount ∧
    Erc1155Token.transfer 1000 c1State 0 1 2 30 .KeepAlive =
      safe_transfer_from 1000 c1State 1 2 0 30 none :=
  ⟨by decide,
   currency_transfer_refines 1000 c1State 0 1 2 30 .KeepAlive (by decide)⟩

/-- C10: when `amount` exceeds the bound token's issuance, the Currency
View's `burn` clamps the issuance entry to zero (removing only the old
issuance) yet returns a `PositiveImbalance` peeking the full `amount`, so
reconciling that imbalance leaves issuance at `amount`, strictly above its
pre-burn value. -/
theorem currency_burn_overdraw (Bmax : Nat) (s : Ledger) (tok amount : Nat)
    (h1 : getIssuance s tok < amount) (h2 : amount ≤ Bmax) :
    getIssuance (Erc1155Token.burn s tok amount).1 tok = 0 ∧
    (Erc1155Token.burn s tok amount).2.peek = amount ∧
    getIssuance
        (dropPositive Bmax (Erc1155Token.burn s tok amount).1
          (Erc1155Token.burn s tok amount).2) tok = amount ∧
    getIssuance s tok <
      getIssuance
        (dropPositive Bmax (Erc1155Token.burn s tok amount).1
          (Erc1155Token.burn s tok amount).2) tok := by
  have ha : ¬ (amount = 0) := by omega
  have hnle : ¬ (amount ≤ (s.issuance tok).getD 0) := by
    simp only [getIssuance] at h1
    omega
  refine ⟨?_, ?_, ?_, ?_⟩ <;>
    simp [Erc1155Token.burn, dropPositive, setIssuance, getIssuance, satAdd,
          checkedSub, ha, hnle, PositiveImbalance.peek] <;>
    omega

/-- C10 witness: burning 10 of token 0 on the empty ledger (issuance 0). -/
theorem currency_burn_overdraw_witness :
    getIssuance mEmpty 0 < 10 ∧
    getIssuance
        (dropPositive 1000 (Erc1155Token.burn mEmpty 0 10).1
          (Erc1155Token.burn mEmpty 0 10).2) 0 = 10 :=
  ⟨by decide,
   (currency_burn_overdraw 1000 mEmpty 0 10 (by decide) (by decide)).2.2.1⟩

end Erc1155
